import Mathlib

/-!
# Verification of the CanvasToDrive pagination-and-transfer pipeline

Shallow embedding of the repository's core logic:

* `src/canvas_client.py` — `CanvasClient._get`, `CanvasClient._get_paginated`
  (cursor-linked pagination over a Link response header) and
  `CanvasClient.get_file_content`;
* `src/drive_client.py` — `GoogleDriveClient.file_exists` and
  `GoogleDriveClient.upload_file` (duplicate-avoidance existence check);
* `demo_canvas_to_drive.py` — `list_course_files` (course file scanner).

HTTP responses are modelled as values of `Resp`; the network is a function
from request URL to response.  The unbounded `while url:` loop of
`_get_paginated` is modelled with explicit fuel: a result of `none` means the
loop has not terminated within the given number of iterations.
-/

deriving instance DecidableEq for Except

namespace CanvasToDrive

/-- A JSON response body: either a collection page (a JSON array of records)
or a single non-array JSON value.  The element type `α` stands for one
JSON record. -/
inductive Body (α : Type) where
  | collection (items : List α)
  | single (value : α)
deriving DecidableEq

/-- An HTTP response as seen by `canvas_client.py`: a status code, a JSON
body, and an optional `Link` header (`none` when the header is absent). -/
structure Resp (α : Type) where
  status : Nat
  body : Body α
  link : Option String
deriving DecidableEq

/-- `CanvasAPIError(message, status_code, endpoint)` raised by the client. -/
structure CanvasAPIError where
  message : String
  statusCode : Nat
  endpoint : String
deriving DecidableEq

/-- Python single-separator `str.split`, on the character list of a string:
splitting `a;b` on the semicolon gives the parts `a` and `b`; splitting the
empty string gives one empty part; a separator at either end contributes an
empty part there. -/
def splitChar (c : Char) : List Char → List (List Char)
  | [] => [[]]
  | x :: xs =>
    let r := splitChar c xs
    if x = c then [] :: r
    else
      match r with
      | [] => [[x]]
      | y :: ys => (x :: y) :: ys

/-- Python `str.strip()`: remove leading and trailing whitespace. -/
def stripChars (l : List Char) : List Char :=
  ((l.dropWhile Char.isWhitespace).reverse.dropWhile Char.isWhitespace).reverse

/-- The literal tag compared against in `_get_paginated`:
`parts[1].strip() == "rel=next-in-quotes"` (the string held by
`relNextTag`). -/
def relNextTag : String := "rel=\"next\""

/-- One iteration of the `for link in links` loop body of `_get_paginated`:
split a single Link-header entry on `;`; when it has exactly two parts and
the second part, stripped, is `rel="next"`, return the URL obtained from the
first part by stripping it and removing the first and last characters, the
angle brackets (`parts[0].strip()[1:-1]`). -/
def entryNext (link : List Char) : Option (List Char) :=
  match splitChar ';' link with
  | [p0, p1] =>
      if String.mk (stripChars p1) = relNextTag then
        some ((stripChars p0).drop 1).dropLast
      else none
  | _ => none

/-- The whole Link-header scan of `_get_paginated`: split the header on `,`
and return the URL of the first entry accepted by `entryNext` (the Python
loop breaks at the first match). -/
def parseNextLink (header : String) : Option String :=
  ((splitChar ',' header.toList).findSome? entryNext).map String.mk

/-- Source: `link_header = response.headers.get(..Link..); if link_header:` —
the header is parsed only when present and non-empty (Python truthiness). -/
def nextUrl (link : Option String) : Option String :=
  match link with
  | none => none
  | some h => if h = "" then none else parseNextLink h

/-- The error raised by `_get_paginated` on a non-200 page. -/
def pagError (status : Nat) (url : String) : CanvasAPIError :=
  ⟨"Failed to fetch paginated data from " ++ url ++ ": " ++ toString status,
   status, url⟩

/-- The error raised by `_get` on a non-200, non-404 response. -/
def getError (status : Nat) (endpoint : String) : CanvasAPIError :=
  ⟨"Failed to fetch " ++ endpoint ++ ": " ++ toString status,
   status, endpoint⟩

/-- The value returned by `_get_paginated`: normally the accumulated list
`all_results`, but on a non-list first page the raw body value itself
(`return data`). -/
inductive PagRes (α : Type) where
  | items (l : List α)
  | raw (v : α)
deriving DecidableEq

/-- The `while url:` loop of `CanvasClient._get_paginated`, with explicit
fuel.  The loop variable `url` is `none` (Python `None`) or a string, and —
as in the source's `while url:` condition — the loop body runs only when the
url is a non-empty string (Python truthiness): a `None` or empty-string url
ends the loop, returning the accumulated `all_results`.  Besides the result
the model returns the list of URLs requested (one GET per loop-body run), in
request order.  A result of `none` means the fuel ran out before the loop
finished. -/
def getPagAux (server : String → Resp α) :
    Nat → Option String → List α → List String →
    Option (List String × Except CanvasAPIError (PagRes α))
  | 0, _, _, _ => none
  | fuel + 1, url, acc, trace =>
    match url with
    | none => some (trace, .ok (.items acc))
    | some u =>
      if u = "" then some (trace, .ok (.items acc))
      else
        let r := server u
        if r.status ≠ 200 then
          some (trace ++ [u], .error (pagError r.status u))
        else
          match r.body with
          | .single v =>
              if acc.isEmpty then some (trace ++ [u], .ok (.raw v))
              else some (trace ++ [u], .ok (.items acc))
          | .collection items =>
              getPagAux server fuel (nextUrl r.link) (acc ++ items)
                (trace ++ [u])

/-- `CanvasClient._get_paginated(session, endpoint)`: start the loop at
`url = f"{self.api_url}{endpoint}"` with empty accumulator. -/
def getPaginated (server : String → Resp α) (fuel : Nat)
    (apiUrl endpoint : String) :
    Option (List String × Except CanvasAPIError (PagRes α)) :=
  getPagAux server fuel (some (apiUrl ++ endpoint)) [] []

/-- `CanvasClient._get(session, endpoint)`: 200 returns the JSON data,
404 returns `None`, anything else raises `CanvasAPIError` carrying the
status code and the endpoint. -/
def canvasGet (server : String → Resp α) (apiUrl endpoint : String) :
    Except CanvasAPIError (Option (Body α)) :=
  let r := server (apiUrl ++ endpoint)
  if r.status = 200 then .ok (some r.body)
  else if r.status = 404 then .ok none
  else .error (getError r.status endpoint)

/-- A run of the pagination loop described as data: `servesChain server l`
holds when, for consecutive entries `(u, p)` of `l`, the page URL `u` is
non-empty (a truthy url, so the `while url:` loop body actually runs and the
GET is issued), the response at `u` has status 200, a collection body `p`,
and a Link header whose parsed next-URL is the URL of the following entry
(and no next-URL at the last entry). -/
def servesChain (server : String → Resp α) : List (String × List α) → Prop
  | [] => True
  | (u, p) :: rest =>
      u ≠ "" ∧
      (server u).status = 200 ∧
      (server u).body = .collection p ∧
      nextUrl (server u).link = rest.head?.map Prod.fst ∧
      servesChain server rest

theorem getPagAux_of_chain (server : String → Resp α) :
    ∀ (chain : List (String × List α)) (u : String) (p : List α)
      (fuel : Nat) (acc : List α) (trace : List String),
      servesChain server ((u, p) :: chain) →
      ((u, p) :: chain).length < fuel →
      getPagAux server fuel (some u) acc trace =
        some (trace ++ ((u, p) :: chain).map Prod.fst,
              .ok (.items (acc ++ (((u, p) :: chain).map Prod.snd).flatten))) := by
  intro chain
  induction chain with
  | nil =>
    intro u p fuel acc trace hserve hfuel
    obtain ⟨hne, h200, hbody, hnext, -⟩ := hserve
    obtain ⟨f, rfl⟩ : ∃ f, fuel = f + 2 :=
      ⟨fuel - 2, by simp at hfuel; omega⟩
    simp only [List.head?, Option.map] at hnext
    simp [getPagAux, hne, h200, hbody, hnext]
  | cons hd tl ih =>
    intro u p fuel acc trace hserve hfuel
    obtain ⟨hne, h200, hbody, hnext, hrest⟩ := hserve
    obtain ⟨f, rfl⟩ : ∃ f, fuel = f + 1 :=
      ⟨fuel - 1, by simp at hfuel; omega⟩
    obtain ⟨u2, p2⟩ := hd
    simp only [List.head?, Option.map] at hnext
    have step :
        getPagAux server (f + 1) (some u) acc trace =
          getPagAux server f (some u2) (acc ++ p) (trace ++ [u]) := by
      simp [getPagAux, hne, h200, hbody, hnext]
    rw [step, ih u2 p2 f (acc ++ p) (trace ++ [u]) hrest (by
      simp at hfuel ⊢; omega)]
    simp

/-- A concrete two-page server: page `"p1"` holds `[10, 20]` and carries a
`rel="next"` link to `"p2"`; page `"p2"` holds `[30]` and has no Link
header. -/
def twoPageServer : String → Resp Nat := fun u =>
  if u = "p1" then ⟨200, .collection [10, 20], some "<p2>; rel=\"next\""⟩
  else ⟨200, .collection [30], none⟩

/-- A server whose every page carries a `rel="next"` Link entry with an
empty embedded URL: the entry `<>; rel="next"` strips to the URL `""`. -/
def emptyNextServer : String → Resp Nat :=
  fun _ => ⟨200, .collection [5], some "<>; rel=\"next\""⟩

/-- C1 counterexample: a `rel="next"` entry IS present in the Link header
(it parses to the embedded URL `""`), yet the fetch stops after exactly one
GET request — `url = parts[0].strip()[1:-1]` is the empty string and the
`while url:` condition exits the loop — so pagination does not stop exactly
when no `rel="next"` entry is present, and a present entry's URL does not
always become a next request target. -/
theorem pagination_empty_next_url_counterexample :
    parseNextLink "<>; rel=\"next\"" = some "" ∧
    getPagAux emptyNextServer 3 (some "u") [] [] =
      some (["u"], .ok (.items [5])) ∧
    (["u"] : List String).length = 1 := by
  refine ⟨by decide, by decide, rfl⟩

/-- C1 (amended): pagination stops exactly when the Link header yields no
`rel="next"` entry OR the URL embedded in the first such entry is empty
(the loop's `while url:` truthiness test), regardless of the page's
content; when a `rel="next"` entry with a non-empty embedded URL is
present, that URL becomes the next request target; for a two-page
collection (page 1 with a `rel="next"` link carrying a non-empty URL, page
2 without) exactly two GET requests are issued. -/
theorem pagination_stops_unless_truthy_next_link (server : String → Resp α) :
    (∀ (fuel : Nat) (u u2 : String) (p acc : List α) (trace : List String),
        u ≠ "" →
        (server u).status = 200 →
        (server u).body = .collection p →
        nextUrl (server u).link = some u2 →
        getPagAux server (fuel + 1) (some u) acc trace =
          getPagAux server fuel (some u2) (acc ++ p) (trace ++ [u])) ∧
    (∀ (fuel : Nat) (u : String) (p acc : List α) (trace : List String),
        u ≠ "" →
        (server u).status = 200 →
        (server u).body = .collection p →
        nextUrl (server u).link = none →
        getPagAux server (fuel + 2) (some u) acc trace =
          some (trace ++ [u], .ok (.items (acc ++ p)))) ∧
    (∀ (fuel : Nat) (u : String) (p acc : List α) (trace : List String),
        u ≠ "" →
        (server u).status = 200 →
        (server u).body = .collection p →
        nextUrl (server u).link = some "" →
        getPagAux server (fuel + 2) (some u) acc trace =
          some (trace ++ [u], .ok (.items (acc ++ p)))) ∧
    (∀ (fuel : Nat) (u1 u2 : String) (p1 p2 : List α),
        u1 ≠ "" → u2 ≠ "" →
        (server u1).status = 200 → (server u1).body = .collection p1 →
        nextUrl (server u1).link = some u2 →
        (server u2).status = 200 → (server u2).body = .collection p2 →
        nextUrl (server u2).link = none →
        getPagAux server (fuel + 3) (some u1) [] [] =
          some ([u1, u2], .ok (.items (p1 ++ p2))) ∧
        [u1, u2].length = 2) := by
  have hstep : ∀ (fuel : Nat) (u u2 : String) (p acc : List α)
      (trace : List String),
      u ≠ "" →
      (server u).status = 200 →
      (server u).body = .collection p →
      nextUrl (server u).link = some u2 →
      getPagAux server (fuel + 1) (some u) acc trace =
        getPagAux server fuel (some u2) (acc ++ p) (trace ++ [u]) := by
    intro fuel u u2 p acc trace hne h200 hbody hnext
    simp [getPagAux, hne, h200, hbody, hnext]
  have hstop : ∀ (fuel : Nat) (u : String) (p acc : List α)
      (trace : List String),
      u ≠ "" →
      (server u).status = 200 →
      (server u).body = .collection p →
      nextUrl (server u).link = none →
      getPagAux server (fuel + 2) (some u) acc trace =
        some (trace ++ [u], .ok (.items (acc ++ p))) := by
    intro fuel u p acc trace hne h200 hbody hnext
    simp [getPagAux, hne, h200, hbody, hnext]
  have hstopEmpty : ∀ (fuel : Nat) (u : String) (p acc : List α)
      (trace : List String),
      u ≠ "" →
      (server u).status = 200 →
      (server u).body = .collection p →
      nextUrl (server u).link = some "" →
      getPagAux server (fuel + 2) (some u) acc trace =
        some (trace ++ [u], .ok (.items (acc ++ p))) := by
    intro fuel u p acc trace hne h200 hbody hnext
    simp [getPagAux, hne, h200, hbody, hnext]
  refine ⟨hstep, hstop, hstopEmpty, ?_⟩
  intro fuel u1 u2 p1 p2 hne1 hne2 h1 h2 h3 h4 h5 h6
  refine ⟨?_, rfl⟩
  have e1 := hstep (fuel + 2) u1 u2 p1 [] [] hne1 h1 h2 h3
  have e2 := hstop fuel u2 p2 p1 [u1] hne2 h4 h5 h6
  rw [show fuel + 3 = (fuel + 2) + 1 from rfl, e1]
  simpa using e2

/-- Witness for C1 (amended) at the concrete two-page server: both pages
are fetched and exactly two GET requests are issued. -/
theorem pagination_stops_unless_truthy_next_link_witness :
    getPagAux twoPageServer 3 (some "p1") [] [] =
      some (["p1", "p2"], .ok (.items [10, 20, 30])) ∧
    (["p1", "p2"] : List String).length = 2 := by
  have h := (pagination_stops_unless_truthy_next_link twoPageServer).2.2.2 0
    "p1" "p2" [10, 20] [30] (by decide) (by decide) (by decide) (by decide)
    (by decide) (by decide) (by decide) (by decide)
  exact ⟨h.1, h.2⟩

/-- C2: a paginated fetch whose run retrieves N collection pages of sizes
s₁..sₙ (each requested at a truthy URL, as the `while url:` loop requires)
returns the pages concatenated in response order (preserving element order
within and across pages), a sequence of length s₁+...+sₙ. -/
theorem paginated_fetch_concatenates_pages (server : String → Resp α)
    (u : String) (p : List α) (chain : List (String × List α)) (fuel : Nat)
    (hserve : servesChain server ((u, p) :: chain))
    (hfuel : ((u, p) :: chain).length < fuel) :
    getPagAux server fuel (some u) [] [] =
      some (((u, p) :: chain).map Prod.fst,
            .ok (.items ((((u, p) :: chain).map Prod.snd).flatten))) ∧
    ((((u, p) :: chain).map Prod.snd).flatten).length =
      (((u, p) :: chain).map (fun pr => pr.snd.length)).sum := by
  constructor
  · have h := getPagAux_of_chain server chain u p fuel [] [] hserve hfuel
    simpa using h
  · simp [Function.comp_def]

/-- Witness for C2 at the concrete two-page server: the result is the
concatenation `[10, 20] ++ [30]`, of length 2 + 1. -/
theorem paginated_fetch_concatenates_pages_witness :
    getPagAux twoPageServer 3 (some "p1") [] [] =
      some (["p1", "p2"], .ok (.items ([10, 20] ++ [30]))) ∧
    ([10, 20] ++ [30] : List Nat).length = 3 := by
  have h := paginated_fetch_concatenates_pages twoPageServer "p1" [10, 20]
    [("p2", [30])] 3
    ⟨by decide, by decide, by decide, by decide,
     by decide, by decide, by decide, by decide, trivial⟩
    (by decide)
  constructor
  · have h1 := h.1
    simpa using h1
  · decide

/-- A server that answers every request with status 404 and an empty body. -/
def status404Server : String → Resp Nat := fun _ => ⟨404, .collection [], none⟩

/-- A server that answers every request with status 200 and an empty page. -/
def emptyPageServer : String → Resp Nat := fun _ => ⟨200, .collection [], none⟩

/-- A server that answers every request with status 500. -/
def server500 : String → Resp Nat := fun _ => ⟨500, .collection [], none⟩

/-- C3 counterexample: within pagination a 404 IS distinguished from an
empty collection — a 404 page aborts the fetch with a `CanvasAPIError`
carrying status 404 (contrary to the claim that pagination treats 404 as
normal termination rather than an error), whereas an empty 200 page
terminates normally with an empty result. -/
theorem pagination_404_raises_counterexample :
    getPagAux status404Server 1 (some "u") [] [] =
      some (["u"], .error (pagError 404 "u")) ∧
    getPagAux emptyPageServer 2 (some "u") [] [] =
      some (["u"], .ok (.items [])) := by
  constructor <;> decide

/-- C3 (amended): a non-200, non-404 response on the single-resource fetch
raises an API error carrying that status code and the requested endpoint; a
404 on the single-resource fetch yields "not found" (`none`), not an error;
within pagination ANY non-200 status — including 404 — at an
actually-requested page aborts the fetch with an API error carrying the
status and the page URL (normal termination of pagination is solely an
absent or non-truthy `rel="next"` link). -/
theorem fetch_error_policy (server : String → Resp α)
    (apiUrl endpoint : String) :
    ((server (apiUrl ++ endpoint)).status ≠ 200 →
     (server (apiUrl ++ endpoint)).status ≠ 404 →
       canvasGet server apiUrl endpoint =
         .error (getError (server (apiUrl ++ endpoint)).status endpoint)) ∧
    ((server (apiUrl ++ endpoint)).status = 404 →
       canvasGet server apiUrl endpoint = .ok none) ∧
    (∀ (fuel : Nat) (u : String) (acc : List α) (trace : List String),
        u ≠ "" →
        (server u).status ≠ 200 →
        getPagAux server (fuel + 1) (some u) acc trace =
          some (trace ++ [u], .error (pagError (server u).status u))) := by
  refine ⟨?_, ?_, ?_⟩
  · intro h200 h404
    simp [canvasGet, h200, h404]
  · intro h404
    simp [canvasGet, h404]
  · intro fuel u acc trace hne h200
    simp [getPagAux, hne, h200]

/-- Witness for C3 (amended): a 500 aborts both fetch styles with an error
carrying the status, a 404 on the single-resource fetch yields `none`. -/
theorem fetch_error_policy_witness :
    canvasGet server500 "https://c" "/courses/1" =
      .error (getError 500 "/courses/1") ∧
    canvasGet status404Server "https://c" "/courses/1" = .ok none ∧
    getPagAux server500 1 (some "u") [] [] =
      some (["u"], .error (pagError 500 "u")) := by
  refine ⟨?_, ?_, ?_⟩
  · exact (fetch_error_policy server500 "https://c" "/courses/1").1
      (by decide) (by decide)
  · exact (fetch_error_policy status404Server "https://c" "/courses/1").2.1
      (by decide)
  · exact (fetch_error_policy server500 "https://c" "/courses/1").2.2 0 "u"
      [] [] (by decide) (by decide)

/-- A `rel="next"` Link-header entry carrying an extra `;`-separated
parameter (`title="p2"`), as in the C10 scenario. -/
def extraParamHeader : String := "<p2>; rel=\"next\"; title=\"p2\""

/-- A server whose single page carries the extra-parameter next link. -/
def extraParamServer : String → Resp Nat :=
  fun _ => ⟨200, .collection [7], some extraParamHeader⟩

/-- C10: the loop recognises a next-page target only when some
comma-separated Link-header entry splits on `;` into exactly two parts whose
second part, after stripping whitespace, is the literal `rel="next"`; an
entry with any additional `;`-separated parameter is never followed, so
pagination terminates at that page. -/
theorem next_link_needs_exactly_two_parts {α : Type} :
    (∀ (link u : List Char), entryNext link = some u →
      ∃ p0 p1, splitChar ';' link = [p0, p1] ∧
        String.mk (stripChars p1) = relNextTag ∧
        u = ((stripChars p0).drop 1).dropLast) ∧
    (∀ link : List Char,
      (splitChar ';' link).length ≠ 2 → entryNext link = none) ∧
    (∀ (header u : String), parseNextLink header = some u →
      ∃ entry ∈ splitChar ',' header.toList,
        ∃ l, entryNext entry = some l ∧ u = String.mk l) ∧
    (∀ (server : String → Resp α) (fuel : Nat) (u : String) (p : List α),
        u ≠ "" →
        (server u).status = 200 →
        (server u).body = .collection p →
        (server u).link = some extraParamHeader →
        getPagAux server (fuel + 2) (some u) [] [] =
          some ([u], .ok (.items p))) := by
  refine ⟨?_, ?_, ?_, ?_⟩
  · intro link u h
    unfold entryNext at h
    split at h
    next p0 p1 heq =>
      split at h
      next htag => exact ⟨p0, p1, heq, htag, (Option.some.inj h).symm⟩
      next => simp at h
    next => simp at h
  · intro link hlen
    unfold entryNext
    split
    next p0 p1 heq => exact absurd (by rw [heq]; rfl) hlen
    next => rfl
  · intro header u h
    unfold parseNextLink at h
    rw [Option.map_eq_some'] at h
    obtain ⟨l, hfind, rfl⟩ := h
    obtain ⟨entry, hmem, hsome⟩ := List.exists_of_findSome?_eq_some hfind
    exact ⟨entry, hmem, l, hsome, rfl⟩
  · intro server fuel u p hne h200 hbody hlink
    have hnone : nextUrl (server u).link = none := by
      rw [hlink]
      decide
    simp [getPagAux, hne, h200, hbody, hnone]

/-- Witness for C10: a well-formed two-part entry is recognised (and has
the stated shape), while the extra-parameter header stops pagination after
a single request. -/
theorem next_link_needs_exactly_two_parts_witness :
    (∃ p0 p1, splitChar ';' ("<p2>; rel=\"next\"").toList = [p0, p1] ∧
      String.mk (stripChars p1) = relNextTag ∧
      ("p2").toList = ((stripChars p0).drop 1).dropLast) ∧
    getPagAux extraParamServer 2 (some "q") [] [] =
      some (["q"], .ok (.items [7])) := by
  constructor
  · exact (next_link_needs_exactly_two_parts (α := Nat)).1
      ("<p2>; rel=\"next\"").toList ("p2").toList (by decide)
  · exact (next_link_needs_exactly_two_parts (α := Nat)).2.2.2
      extraParamServer 0 "q" [7] (by decide) (by decide) (by decide)
      (by decide)

/-! ## Google Drive client embedding (`src/drive_client.py`) -/

/-- A stored Drive file as returned by `files().list` with
`fields=files(id, name, mimeType, size, createdTime)`. -/
structure StoredFile where
  id : String
  name : String
  mimeType : String
  size : Nat
  createdTime : String
deriving DecidableEq

/-- The single-quote character used by the Drive query f-strings. -/
def quoteChar : Char := Char.ofNat 39

/-- The string `s` wrapped in single quotes, as the query f-strings do. -/
def quoted (s : String) : String :=
  String.singleton quoteChar ++ s ++ String.singleton quoteChar

/-- The search query built by `GoogleDriveClient.file_exists`:
`name = <single-quoted filename> and trashed = false` with the filename
embedded verbatim, plus ` and <single-quoted folder id> in parents` exactly
when a folder id is given. -/
def buildQuery (filename : String) (folder_id : Option String) : String :=
  let query := "name = " ++ quoted filename ++ " and trashed = false"
  match folder_id with
  | some fid => query ++ (" and " ++ quoted fid ++ " in parents")
  | none => query

/-- The Drive backend as consumed by `file_exists` and `upload_file`:
`listFiles` answers a `files().list` call for a query string (an `.error`
models an `HttpError` or other exception raised by the API client),
`createFile` answers a `files().create` upload for a (filename, parent
folder id) pair. -/
structure DriveBackend where
  listFiles : String → Except String (List StoredFile)
  createFile : String → Option String → Except String String

/-- `GoogleDriveClient.file_exists(filename, folder_id)`: query the backend
with the exact-match filter; return the first entry of the result list if
any, `none` when the backend reports zero matches, and `none` when the
backend raises — the exception is caught and only logged (fail-open). -/
def file_exists (b : DriveBackend) (filename : String)
    (folder_id : Option String) : Option StoredFile :=
  match b.listFiles (buildQuery filename folder_id) with
  | .ok files => files.head?
  | .error _ => none

/-- C5: `file_exists` returns `none` when the backend's match list is empty
and the literal first entry when the backend returns one or more matches;
the query it issues is the exact-match filter `name = <single-quoted
filename> and trashed = false` — the filename embedded verbatim, so case-sensitive and
non-normalized — with a parent-folder constraint appended exactly when a
folder id is given. -/
theorem file_exists_query_and_first_match (b : DriveBackend)
    (filename : String) (folder : Option String) :
    (b.listFiles (buildQuery filename folder) = .ok [] →
      file_exists b filename folder = none) ∧
    (∀ (f : StoredFile) (fs : List StoredFile),
      b.listFiles (buildQuery filename folder) = .ok (f :: fs) →
      file_exists b filename folder = some f) ∧
    buildQuery filename none =
      "name = " ++ quoted filename ++ " and trashed = false" ∧
    (∀ fid : String, buildQuery filename (some fid) =
      "name = " ++ quoted filename ++ " and trashed = false" ++
        (" and " ++ quoted fid ++ " in parents")) := by
  refine ⟨?_, ?_, rfl, fun fid => rfl⟩
  · intro h
    simp [file_exists, h]
  · intro f fs h
    simp [file_exists, h]

/-- A backend that reports no match for any query. -/
def emptyBackend : DriveBackend :=
  ⟨fun _ => .ok [], fun _ _ => .ok "n1"⟩

/-- The pre-existing stored file of scenario B. -/
def syllabusFile : StoredFile :=
  ⟨"ex1", "syllabus.pdf", "application/pdf", 3, "2025-07-01"⟩

/-- A backend on which exactly the query for `syllabus.pdf` inside folder
`fold` matches `syllabusFile`. -/
def dupBackend : DriveBackend :=
  ⟨fun q => if q = buildQuery "syllabus.pdf" (some "fold") then
      .ok [syllabusFile]
    else .ok [],
   fun _ _ => .ok "new1"⟩

/-- Witness for C5: an empty match list yields `none`; a non-empty match
list yields its first entry. -/
theorem file_exists_query_and_first_match_witness :
    file_exists emptyBackend "a.pdf" none = none ∧
    file_exists dupBackend "syllabus.pdf" (some "fold") = some syllabusFile := by
  constructor
  · exact (file_exists_query_and_first_match emptyBackend "a.pdf" none).1 rfl
  · exact (file_exists_query_and_first_match dupBackend "syllabus.pdf"
      (some "fold")).2.1 syllabusFile [] (by rfl)

/-- C6: when the backend raises during the existence check (rate limiting,
malformed query, ...), `file_exists` catches the error and returns `none`
("no existing file found"); the error is logged but never propagated to the
caller (fail-open). -/
theorem file_exists_fail_open (b : DriveBackend) (filename : String)
    (folder : Option String) (e : String)
    (h : b.listFiles (buildQuery filename folder) = .error e) :
    file_exists b filename folder = none := by
  simp [file_exists, h]

/-- A backend whose list operation always raises. -/
def failBackend : DriveBackend :=
  ⟨fun _ => .error "rateLimitExceeded", fun _ _ => .ok "n1"⟩

/-- Witness for C6 at a backend that always raises. -/
theorem file_exists_fail_open_witness :
    file_exists failBackend "a.pdf" (some "fold") = none :=
  file_exists_fail_open failBackend "a.pdf" (some "fold")
    "rateLimitExceeded" rfl

/-- The outcome of `GoogleDriveClient.upload_file`: the returned value
(`some` file id on success, `none` on failure) together with whether the
`files().create` upload-create operation was invoked. -/
structure UploadOutcome where
  result : Option String
  createCalled : Bool
deriving DecidableEq

/-- `GoogleDriveClient.upload_file(filename, mime_type, file_content,
file_path, folder_id)`.  `fsIsFile` models `Path(file_path).is_file()`.
Mirrors the source's control flow: the `ValueError` raised when neither
content nor path is given is caught and yields `None`; then the duplicate
check — an existing file with the same name short-circuits the upload and
returns the existing file's id; otherwise a missing local file yields
`None`, and then `files().create` is invoked, with an `HttpError` caught
and yielding `None`. -/
def upload_file (fsIsFile : String → Bool) (b : DriveBackend)
    (filename mime_type : String) (file_content : Option (List Nat))
    (file_path : Option String) (folder_id : Option String) :
    UploadOutcome :=
  if file_content.isNone ∧ file_path.isNone then ⟨none, false⟩
  else
    match file_exists b filename folder_id with
    | some existing => ⟨some existing.id, false⟩
    | none =>
      match file_path with
      | some fp =>
        if fsIsFile fp then
          match b.createFile filename folder_id with
          | .ok fid => ⟨some fid, true⟩
          | .error _ => ⟨none, true⟩
        else ⟨none, false⟩
      | none =>
        match b.createFile filename folder_id with
        | .ok fid => ⟨some fid, true⟩
        | .error _ => ⟨none, true⟩

/-- LMS-side file metadata (a `RemoteFile`), resolved by content id at
transfer time. -/
structure RemoteFile where
  id : Nat
  display_name : String
  download_url : String
  content_type : String
  size : Nat
deriving DecidableEq

/-- Modelled from the spec: `TransferResult` (spec §3), the terminal record
produced for each processed file by the Transfer Orchestrator, which is not
present under `src/` (the demo scripts call a `get_file_content(session,
file_id, folder_id)` variant returning this record, while the
`canvas_client.py` under `src/` has no such variant). -/
structure TransferResult where
  canvas_file_id : Nat
  filename : String
  destination_id : Option String
  upload_success : Bool
  duplicate_skipped : Bool
deriving DecidableEq

/-- A transfer outcome together with how many download GET requests and how
many upload-create operations were issued during it. -/
structure TransferTrace where
  result : TransferResult
  downloads : Nat
  uploads : Nat
deriving DecidableEq

/-- Modelled from the spec: the Transfer Orchestrator state machine (spec
§4.4), absent from `src/`.  Per file: (1) resolve metadata by content id —
not found is a terminal failure with no further steps; (2) download the
bytes from the metadata's download url — failure is terminal; (3) existence
check via the embedded `file_exists` — a hit is a terminal success with
`duplicate_skipped = true` and the existing file's id, and no upload request
is sent; (4) otherwise upload via `files().create` — backend error is a
terminal failure. -/
def transfer (resolve : Option RemoteFile)
    (download : String → Option (List Nat)) (b : DriveBackend)
    (folder_id : Option String) (content_id : Nat) : TransferTrace :=
  match resolve with
  | none => ⟨⟨content_id, "", none, false, false⟩, 0, 0⟩
  | some rf =>
    match download rf.download_url with
    | none => ⟨⟨content_id, rf.display_name, none, false, false⟩, 1, 0⟩
    | some _ =>
      match file_exists b rf.display_name folder_id with
      | some existing =>
          ⟨⟨content_id, rf.display_name, some existing.id, true, true⟩, 1, 0⟩
      | none =>
        match b.createFile rf.display_name folder_id with
        | .ok newId =>
            ⟨⟨content_id, rf.display_name, some newId, true, false⟩, 1, 1⟩
        | .error _ =>
            ⟨⟨content_id, rf.display_name, none, false, false⟩, 1, 1⟩

/-- C4: a transfer whose result has `duplicate_skipped = true` also has
`upload_success = true`, its destination id equals the id of the
pre-existing stored file found by the existence check, and the
upload-create operation is never invoked for it — no new storage object is
created; correspondingly, at the source level, when `file_exists` finds an
existing file `upload_file` returns that file's id without calling
`files().create`. -/
theorem duplicate_skip_invariant :
    (∀ (fsIsFile : String → Bool) (b : DriveBackend)
        (filename mime_type : String) (content : Option (List Nat))
        (path : Option String) (folder : Option String) (ex : StoredFile),
        (content.isSome ∨ path.isSome) →
        file_exists b filename folder = some ex →
        upload_file fsIsFile b filename mime_type content path folder =
          ⟨some ex.id, false⟩) ∧
    (∀ (resolve : Option RemoteFile)
        (download : String → Option (List Nat)) (b : DriveBackend)
        (folder : Option String) (cid : Nat),
        (transfer resolve download b folder cid).result.duplicate_skipped =
          true →
        (transfer resolve download b folder cid).result.upload_success =
          true ∧
        (transfer resolve download b folder cid).uploads = 0 ∧
        ∃ rf ex, resolve = some rf ∧
          file_exists b rf.display_name folder = some ex ∧
          (transfer resolve download b folder cid).result.destination_id =
            some ex.id) := by
  constructor
  · intro fsIsFile b filename mime_type content path folder ex hsome hex
    have hcp : ¬(content.isNone ∧ path.isNone) := by
      cases content <;> cases path <;> simp_all
    unfold upload_file
    rw [if_neg hcp, hex]
  · intro resolve download b folder cid hdup
    match hres : resolve with
    | none => simp [transfer] at hdup
    | some rf =>
      match hdl : download rf.download_url with
      | none => simp [transfer, hdl] at hdup
      | some bytes =>
        match hex : file_exists b rf.display_name folder with
        | some ex =>
          refine ⟨?_, ?_, rf, ex, rfl, hex, ?_⟩ <;>
            simp [transfer, hdl, hex]
        | none =>
          match hcf : b.createFile rf.display_name folder with
          | .ok newId => simp [transfer, hdl, hex, hcf] at hdup
          | .error e => simp [transfer, hdl, hex, hcf] at hdup

/-- The remote metadata of scenario B's `syllabus.pdf`. -/
def syllabusRemote : RemoteFile :=
  ⟨42, "syllabus.pdf", "https://c/dl/42", "application/pdf", 3⟩

/-- Witness for C4 at scenario B: `syllabus.pdf` already exists in the
destination folder, so the upload is skipped, the existing id is returned,
and no create operation is issued. -/
theorem duplicate_skip_invariant_witness :
    upload_file (fun _ => true) dupBackend "syllabus.pdf" "application/pdf"
        (some [1, 2, 3]) none (some "fold") = ⟨some "ex1", false⟩ ∧
    (transfer (some syllabusRemote) (fun _ => some [1, 2, 3]) dupBackend
        (some "fold") 42).result.upload_success = true ∧
    (transfer (some syllabusRemote) (fun _ => some [1, 2, 3]) dupBackend
        (some "fold") 42).uploads = 0 := by
  refine ⟨?_, ?_⟩
  · exact duplicate_skip_invariant.1 (fun _ => true) dupBackend
      "syllabus.pdf" "application/pdf" (some [1, 2, 3]) none (some "fold")
      syllabusFile (Or.inl rfl) (by rfl)
  · have h := duplicate_skip_invariant.2 (some syllabusRemote)
      (fun _ => some [1, 2, 3]) dupBackend (some "fold") 42 (by rfl)
    exact ⟨h.1, h.2.1⟩

/-! ## `CanvasClient.get_file_content` (the variant under `src/`) -/

/-- The `/files/{file_id}` metadata JSON as read by
`CanvasClient.get_file_content`: the fields consumed are `url`,
`content-type` and `display_name`, each possibly absent. -/
structure FileRecord where
  url : Option String
  contentType : Option String
  display_name : Option String
deriving DecidableEq

/-- A response to the direct byte-download GET in `get_file_content`. -/
structure DownloadResp where
  status : Nat
  text : String
  byteLen : Nat
deriving DecidableEq

/-- Python `pat in s` on character lists: `pat` occurs as a contiguous
subsequence of the haystack. -/
def containsChars (pat : List Char) : List Char → Bool
  | [] => pat.isEmpty
  | c :: cs => pat.isPrefixOf (c :: cs) || containsChars pat cs

/-- `CanvasClient.get_file_content(session, file_id)` as found under
`src/`: given the already-fetched `/files/{file_id}` metadata (`none` when
`_get` returned `None`), GET the download url only when the metadata is
present and carries a non-empty `url`; on a 200, decode text content for
lowercased content types starting with `text/` or containing `html`, and
otherwise produce the `Binary file: ...` summary; every failure path
returns `None`.  The second component counts download GET requests
issued. -/
def get_file_content (file_info : Option FileRecord)
    (download : String → Option DownloadResp) : Option String × Nat :=
  match file_info with
  | none => (none, 0)
  | some fi =>
    match fi.url with
    | none => (none, 0)
    | some du =>
      if du = "" then (none, 0)
      else
        match download du with
        | none => (none, 1)
        | some resp =>
          if resp.status = 200 then
            let ctype := (fi.contentType.getD "").toList.map Char.toLower
            if ("text/").toList.isPrefixOf ctype ||
                containsChars ("html").toList ctype then
              (some resp.text, 1)
            else
              (some ("Binary file: " ++ fi.display_name.getD "Unknown" ++
                " (" ++ String.mk ctype ++ ", " ++ toString resp.byteLen ++
                " bytes)"), 1)
          else (none, 1)

/-- C8: a transfer whose file-metadata fetch by content id returns
not-found terminates as a failure (`upload_success = false`) with no
download request and no upload request attempted; correspondingly, the
`get_file_content` under `src/` returns `None` without issuing the
download GET when the metadata fetch yields `None`. -/
theorem resolve_not_found_terminal
    (download : String → Option (List Nat)) (b : DriveBackend)
    (folder : Option String) (cid : Nat)
    (dl : String → Option DownloadResp) :
    (transfer none download b folder cid).result.upload_success = false ∧
    (transfer none download b folder cid).downloads = 0 ∧
    (transfer none download b folder cid).uploads = 0 ∧
    get_file_content none dl = (none, 0) :=
  ⟨rfl, rfl, rfl, rfl⟩

/-- A server answering every request with a single non-list JSON value
(the record is modelled by the number `7`). -/
def rawBodyServer : String → Resp Nat := fun _ => ⟨200, .single 7, none⟩

/-- Two pages: `"q1"` is a collection page with a `rel="next"` link to
`"q2"`, whose body is a non-list value. -/
def rawTailServer : String → Resp Nat := fun u =>
  if u = "q1" then ⟨200, .collection [1, 2], some "<q2>; rel=\"next\""⟩
  else ⟨200, .single 9, none⟩

/-- Does a pagination outcome conform to the declared contract of an
ordered sequence of items? -/
def isItemsResult : Except CanvasAPIError (PagRes α) → Bool
  | .ok (.items _) => true
  | _ => false

/-- C9 (code bug): when the first page's body is not a collection,
`_get_paginated` returns the raw body value itself (`return data`) without
issuing further requests — a value that is NOT a sequence of items, contrary
to the function's own `-> List[Dict[str, Any]]` annotation and its
docstring ("A list containing all items from all pages"); when a non-list
body arrives after collection pages, pagination stops and the accumulated
items are returned. -/
theorem nonlist_first_page_returns_raw_value :
    getPagAux rawBodyServer 1 (some "q0") [] [] =
      some (["q0"], .ok (.raw 7)) ∧
    (getPagAux rawBodyServer 1 (some "q0") [] []).map
      (fun pr => isItemsResult pr.2) = some false ∧
    getPagAux rawTailServer 2 (some "q1") [] [] =
      some (["q1", "q2"], .ok (.items [1, 2])) := by
  refine ⟨by decide, by decide, by decide⟩

/-! ## Course file scanner (`demo_canvas_to_drive.list_course_files`) -/

/-- A module item as read by the scanner: the `type`, `title`, `content_id`
and `html_url` fields of the JSON record, each possibly absent (`itemType`
embeds the `type` key). -/
structure ModuleItem where
  itemType : Option String
  title : Option String
  content_id : Option Nat
  html_url : Option String
deriving DecidableEq

/-- A course module: the `id` and `name` fields read by the scanner. -/
structure CourseModule where
  id : Nat
  name : Option String
deriving DecidableEq

/-- One entry of the scanner's result (the `file_info` dict of the demo
scripts): the owning module's name, the item's title (with the source's
defaults), content id and html url, plus the raw item itself. -/
structure FileInfo where
  module_name : String
  title : String
  content_id : Option Nat
  url : Option String
  item : ModuleItem
deriving DecidableEq

/-- Build the `file_info` dict appended for a File-type item. -/
def mkFileInfo (module_name : String) (it : ModuleItem) : FileInfo :=
  ⟨module_name, it.title.getD "Unknown File", it.content_id, it.html_url, it⟩

/-- `demo_canvas_to_drive.list_course_files(canvas_client, course_id)`:
iterate over the course's modules in fetched order, over each module's
items in fetched order (`itemsOf` is the per-module item fetch), and append
a `file_info` for exactly those items whose `type` is `File`. -/
def list_course_files (modules : List CourseModule)
    (itemsOf : Nat → List ModuleItem) : List FileInfo :=
  modules.foldl
    (fun files_found m =>
      (itemsOf m.id).foldl
        (fun acc item =>
          if item.itemType = some "File" then
            acc ++ [mkFileInfo (m.name.getD "Unknown Module") item]
          else acc)
        files_found)
    []

theorem innerFold_eq (mname : String) (items : List ModuleItem)
    (acc : List FileInfo) :
    items.foldl
      (fun a item =>
        if item.itemType = some "File" then a ++ [mkFileInfo mname item]
        else a) acc =
      acc ++ (items.filter
        (fun it => decide (it.itemType = some "File"))).map
          (mkFileInfo mname) := by
  induction items generalizing acc with
  | nil => simp
  | cons it rest ih =>
    by_cases h : it.itemType = some "File" <;>
      simp [List.foldl_cons, List.filter_cons, h, ih]

theorem outerFold_eq (modules : List CourseModule)
    (itemsOf : Nat → List ModuleItem) (acc : List FileInfo) :
    modules.foldl
      (fun files_found m =>
        (itemsOf m.id).foldl
          (fun a item =>
            if item.itemType = some "File" then
              a ++ [mkFileInfo (m.name.getD "Unknown Module") item]
            else a)
          files_found) acc =
      acc ++ modules.flatMap (fun m =>
        ((itemsOf m.id).filter
            (fun it => decide (it.itemType = some "File"))).map
          (mkFileInfo (m.name.getD "Unknown Module"))) := by
  induction modules generalizing acc with
  | nil => simp
  | cons m rest ih =>
    rw [List.foldl_cons, innerFold_eq, ih]
    simp

/-- C7: the scanner returns file descriptors in module order, then item
order within each module (discovery order) — it equals the per-module
concatenation of the File-filtered, in-order item lists — and every item
whose type is not exactly `"File"` is silently excluded: every output entry
originates from an item whose `type` field is exactly `"File"`. -/
theorem scan_module_then_item_order (modules : List CourseModule)
    (itemsOf : Nat → List ModuleItem) :
    list_course_files modules itemsOf =
      modules.flatMap (fun m =>
        ((itemsOf m.id).filter
            (fun it => decide (it.itemType = some "File"))).map
          (mkFileInfo (m.name.getD "Unknown Module"))) ∧
    ∀ fi ∈ list_course_files modules itemsOf,
      fi.item.itemType = some "File" := by
  have heq := outerFold_eq modules itemsOf []
  rw [List.nil_append] at heq
  refine ⟨heq, ?_⟩
  intro fi hmem
  rw [list_course_files, heq] at hmem
  rw [List.mem_flatMap] at hmem
  obtain ⟨m, -, hmem⟩ := hmem
  rw [List.mem_map] at hmem
  obtain ⟨it, hit, rfl⟩ := hmem
  rw [List.mem_filter] at hit
  exact of_decide_eq_true hit.2

/-- The single demo module of the C7 witness. -/
def demoModules : List CourseModule := [⟨1, some "Week 1"⟩]

/-- The demo module's items: one File item and one Page item. -/
def demoItems : Nat → List ModuleItem := fun _ =>
  [⟨some "File", some "syllabus.pdf", some 42, some "https://c/f/42"⟩,
   ⟨some "Page", some "welcome", none, none⟩]

/-- Witness for C7: the entry produced for the File item is in the scan
output and carries type `"File"` (the Page item is excluded). -/
theorem scan_module_then_item_order_witness :
    (mkFileInfo "Week 1"
      ⟨some "File", some "syllabus.pdf", some 42,
        some "https://c/f/42"⟩).item.itemType = some "File" :=
  (scan_module_then_item_order demoModules demoItems).2 _ (by decide)

end CanvasToDrive
